import Mathlib

/-!
Shallow embedding of `gym_tiger/envs/tiger_env.py` (class `TigerEnv`).

The Python environment is stateful and draws randomness from the shared
`np.random` source.  We model the mutable object as an explicit record
`TigerEnv` threaded through the operations, and the random source as a
record `Rng` holding two oracle streams: one for the outcomes of
`np.random.randint(0, 2)` calls (booleans, `true` standing for the draw `1`)
and one for the outcomes of `np.random.rand()` calls (rationals standing for
the unit-interval floats), each with its own cursor.

A `step` call can end in four ways in the source: a normal return, a
`ValueError('Invalid action', ...)` from `_take_action`, a
`RuntimeError("Episode is done")` from the initial done-check, or the
`ValueError('Unreachable state reached.')` in `_get_reward` (plus an
`IndexError` if the episode memory were inconsistent).  Since Python raises
leave the already-performed mutations of the object in place, each error
outcome carries the environment state as it stands when the exception
propagates.
-/

namespace GymTiger

/-- Constant `OBS_GROWL_LEFT = [1, 0, 0, 0]` from the source. -/
def OBS_GROWL_LEFT : List Nat := [1, 0, 0, 0]

/-- Constant `OBS_GROWL_RIGHT = [0, 1, 0, 0]` from the source. -/
def OBS_GROWL_RIGHT : List Nat := [0, 1, 0, 0]

/-- Constant `OBS_START = [0, 0, 1, 0]` from the source. -/
def OBS_START : List Nat := [0, 0, 1, 0]

/-- Action code `ACTION_OPEN_LEFT = 0`. -/
def ACTION_OPEN_LEFT : Int := 0

/-- Action code `ACTION_OPEN_RIGHT = 1`. -/
def ACTION_OPEN_RIGHT : Int := 1

/-- Action code `ACTION_LISTEN = 2`. -/
def ACTION_LISTEN : Int := 2

/-- Oracle model of the shared `np.random` source: a stream of
`randint(0, 2)` outcomes (`true` ↦ `1`) and a stream of `rand()` outcomes,
each with a cursor. -/
structure Rng where
  ints : Nat → Bool
  floats : Nat → ℚ
  intIdx : Nat
  floatIdx : Nat

/-- Model of `np.random.randint(0, 2)`: returns `0` or `1` and advances the source. -/
def npRandint01 (r : Rng) : Int × Rng :=
  ((if r.ints r.intIdx then 1 else 0), ⟨r.ints, r.floats, r.intIdx + 1, r.floatIdx⟩)

/-- Model of `np.random.rand()`: returns a unit-interval value and advances the source. -/
def npRand (r : Rng) : ℚ × Rng :=
  (r.floats r.floatIdx, ⟨r.ints, r.floats, r.intIdx, r.floatIdx + 1⟩)

/-- The mutable attributes of a `TigerEnv` object.  `tiger_left` and
`tiger_right` are Python ints (`0`/`1`); truthiness tests in the source
become `≠ 0` here.  `observation_space_n` and `action_space_n` record the
sizes of the `spaces.Discrete` objects set in `__init__`. -/
structure TigerEnv where
  reward_tiger : Int
  reward_gold : Int
  reward_listen : Int
  obs_accuracy : ℚ
  max_steps_per_episode : Int
  curr_episode : Int
  action_episode_memory : List (List Int)
  curr_step : Int
  left_door_open : Bool
  right_door_open : Bool
  tiger_left : Int
  tiger_right : Int
  observation_space_n : Nat
  action_space_n : Nat
deriving DecidableEq

/-- Method `TigerEnv.reset`: sets `curr_step = -1`, increments `curr_episode`,
appends a fresh empty action log, closes both doors, resamples the tiger
side, and returns the `OBS_START` observation. -/
def TigerEnv.reset (s : TigerEnv) (r : Rng) : List Nat × TigerEnv × Rng :=
  let t := npRandint01 r
  (OBS_START,
   { s with
      curr_step := -1
      curr_episode := s.curr_episode + 1
      action_episode_memory := s.action_episode_memory ++ [[]]
      left_door_open := false
      right_door_open := false
      tiger_left := t.1
      tiger_right := 1 - t.1 },
   t.2)

/-- Constructor `TigerEnv.__init__`: stores the configuration, sets
`curr_episode = -1`, `action_episode_memory = []`, `curr_step = -1`, then
calls `self.reset()`; the action and observation spaces are `Discrete(3)`.
Doors and tiger fields receive placeholder values that the initial reset
immediately overwrites (in Python those attributes do not exist before the
reset). -/
def TigerEnv.init (reward_tiger reward_gold reward_listen : Int)
    (obs_accuracy : ℚ) (max_steps_per_episode : Int) (r : Rng) :
    TigerEnv × Rng :=
  let s0 : TigerEnv :=
    { reward_tiger := reward_tiger
      reward_gold := reward_gold
      reward_listen := reward_listen
      obs_accuracy := obs_accuracy
      max_steps_per_episode := max_steps_per_episode
      curr_episode := -1
      action_episode_memory := []
      curr_step := -1
      left_door_open := false
      right_door_open := false
      tiger_left := 0
      tiger_right := 0
      observation_space_n := 3
      action_space_n := 3 }
  let res := s0.reset r
  (res.2.1, res.2.2)

/-- Construction with no arguments: the default values of `__init__` are
`reward_tiger=-100, reward_gold=10, reward_listen=-1, obs_accuracy=.85,
max_steps_per_episode=100`. -/
def TigerEnv.initDefault (r : Rng) : TigerEnv × Rng :=
  TigerEnv.init (-100) 10 (-1) (17 / 20) 100 r

/-- Method `TigerEnv._take_action`: appends the action to the current episode's
log (this happens before the validity check), then opens the matching door,
or raises `ValueError('Invalid action', action)` for an unknown action.
The error case carries the mutated object, as the Python exception leaves
the already-appended log entry in place. -/
def TigerEnv.take_action (s : TigerEnv) (action : Int) :
    Except TigerEnv TigerEnv :=
  let i := s.curr_episode.toNat
  let s1 := { s with
    action_episode_memory :=
      s.action_episode_memory.set i
        ((s.action_episode_memory.getD i []) ++ [action]) }
  if action = ACTION_OPEN_LEFT then .ok { s1 with left_door_open := true }
  else if action = ACTION_OPEN_RIGHT then .ok { s1 with right_door_open := true }
  else if action = ACTION_LISTEN then .ok s1
  else .error s1

/-- Method `TigerEnv._get_reward`: returns `reward_listen` when no door is open, otherwise
the tiger/gold reward for the open door; the final
`ValueError('Unreachable state reached.')` branch is the `.error` case. -/
def TigerEnv.get_reward (s : TigerEnv) : Except String Int :=
  if ¬ (s.left_door_open || s.right_door_open) then .ok s.reward_listen
  else if s.left_door_open then
    .ok (if s.tiger_left ≠ 0 then s.reward_tiger else s.reward_gold)
  else if s.right_door_open then
    .ok (if s.tiger_right ≠ 0 then s.reward_tiger else s.reward_gold)
  else .error "Unreachable state reached."

/-- Method `TigerEnv._get_obs`: reads the last action of the current episode's
log; for a non-LISTEN action returns the accurate growl, for LISTEN draws
`np.random.rand()` and returns the accurate growl with probability
`obs_accuracy`, the opposite growl otherwise.  The `.error` case is the
`IndexError` Python would raise on an empty log. -/
def TigerEnv.get_obs (s : TigerEnv) (r : Rng) :
    Except String (List Nat × Rng) :=
  match (s.action_episode_memory.getD s.curr_episode.toNat []).getLast? with
  | none => .error "IndexError"
  | some last_action =>
    if last_action ≠ ACTION_LISTEN then
      .ok ((if s.tiger_left ≠ 0 then OBS_GROWL_LEFT else OBS_GROWL_RIGHT), r)
    else
      let u := npRand r
      if u.1 < s.obs_accuracy then
        .ok ((if s.tiger_left ≠ 0 then OBS_GROWL_LEFT else OBS_GROWL_RIGHT), u.2)
      else
        .ok ((if s.tiger_left ≠ 0 then OBS_GROWL_RIGHT else OBS_GROWL_LEFT), u.2)

/-- Method `TigerEnv._step_reset`: closes both doors and resamples the tiger side;
runs after every timestep. -/
def TigerEnv.step_reset (s : TigerEnv) (r : Rng) : TigerEnv × Rng :=
  let t := npRandint01 r
  ({ s with
      left_door_open := false
      right_door_open := false
      tiger_left := t.1
      tiger_right := 1 - t.1 },
   t.2)

/-- Outcome of a `step` call.  Error outcomes carry the environment state
as it stands when the exception propagates out of `step` (Python raises do
not roll back earlier attribute mutations). -/
inductive StepResult where
  | ok (ob : List Nat) (reward : Int) (done : Bool) (s : TigerEnv) (r : Rng)
  | invalidAction (s : TigerEnv) (r : Rng)
  | episodeDone (s : TigerEnv) (r : Rng)
  | internalError (s : TigerEnv) (r : Rng)

/-- The environment state carried by a `step` outcome. -/
def StepResult.envState : StepResult → TigerEnv
  | .ok _ _ _ s _ => s
  | .invalidAction s _ => s
  | .episodeDone s _ => s
  | .internalError s _ => s

/-- The random-source state carried by a `step` outcome. -/
def StepResult.rngState : StepResult → Rng
  | .ok _ _ _ _ r => r
  | .invalidAction _ r => r
  | .episodeDone _ r => r
  | .internalError _ r => r

/-- Whether the outcome is a normal return. -/
def StepResult.isOk : StepResult → Bool
  | .ok _ _ _ _ _ => true
  | _ => false

/-- Whether the outcome is the `ValueError('Invalid action', ...)` raise. -/
def StepResult.isInvalidAction : StepResult → Bool
  | .invalidAction _ _ => true
  | _ => false

/-- Whether the outcome is the `RuntimeError("Episode is done")` raise. -/
def StepResult.isEpisodeDone : StepResult → Bool
  | .episodeDone _ _ => true
  | _ => false

/-- The `done` flag of a normal return. -/
def StepResult.doneOf : StepResult → Option Bool
  | .ok _ _ done _ _ => some done
  | _ => none

/-- The observation of a normal return. -/
def StepResult.obOf : StepResult → Option (List Nat)
  | .ok ob _ _ _ _ => some ob
  | _ => none

/-- The reward of a normal return. -/
def StepResult.rewardOf : StepResult → Option Int
  | .ok _ reward _ _ _ => some reward
  | _ => none

/-- Method `TigerEnv.step`: raises when `curr_step >= max_steps_per_episode`,
otherwise increments `curr_step`, applies `_take_action`, recomputes
`done`, computes the reward and the observation, performs `_step_reset`,
and returns `(ob, reward, done, {})`. -/
def TigerEnv.step (s : TigerEnv) (r : Rng) (action : Int) : StepResult :=
  if s.curr_step ≥ s.max_steps_per_episode then .episodeDone s r
  else
    let s1 := { s with curr_step := s.curr_step + 1 }
    match s1.take_action action with
    | .error s2 => .invalidAction s2 r
    | .ok s2 =>
      let done := decide (s2.curr_step ≥ s2.max_steps_per_episode)
      match s2.get_reward with
      | .error _ => .internalError s2 r
      | .ok reward =>
        match s2.get_obs r with
        | .error _ => .internalError s2 r
        | .ok obr =>
          let s3 := s2.step_reset obr.2
          .ok obr.1 reward done s3.1 s3.2

/-- States reachable through the public interface: construction (with any
configuration), `reset`, and `step` (including the states left behind by a
raising `step`). -/
inductive Reachable : TigerEnv → Prop where
  | init : ∀ (rt rg rl : Int) (oa : ℚ) (ms : Int) (r : Rng),
      Reachable (TigerEnv.init rt rg rl oa ms r).1
  | reset : ∀ (s : TigerEnv) (r : Rng), Reachable s →
      Reachable (s.reset r).2.1
  | step : ∀ (s : TigerEnv) (r : Rng) (a : Int), Reachable s →
      Reachable ((s.step r a).envState)

/-- The reward table as the spec writes it: `LISTEN` yields
`reward_listen`; `OPEN_LEFT` yields `reward_tiger` when `tiger_left` is
true, else `reward_gold`; `OPEN_RIGHT` likewise for `tiger_right`. -/
def specRewardTable (s : TigerEnv) (action : Int) : Int :=
  if action = ACTION_LISTEN then s.reward_listen
  else if action = ACTION_OPEN_LEFT then
    (if s.tiger_left ≠ 0 then s.reward_tiger else s.reward_gold)
  else
    (if s.tiger_right ≠ 0 then s.reward_tiger else s.reward_gold)

/-- One-hot check: exactly one component is `1` and every component is a
bit. -/
def isOneHot (l : List Nat) : Bool :=
  l.count 1 = 1 && l.all (fun x => x = 0 || x = 1)

/-- A concrete deterministic random source for witnesses: every
`randint(0, 2)` draw returns `0`, every `rand()` draw returns `0`. -/
def rng0 : Rng := ⟨fun _ => false, fun _ => 0, 0, 0⟩

/-- Exactly one of the two tiger flags holds the value `1`, the other `0`
(the only values `reset` and `_step_reset` ever assign). -/
def tigerOneHot (s : TigerEnv) : Prop :=
  (s.tiger_left = 1 ∧ s.tiger_right = 0) ∨ (s.tiger_left = 0 ∧ s.tiger_right = 1)

theorem getD_set_self (l : List (List Int)) (i : Nat) (x : List Int)
    (h : i < l.length) : (l.set i x).getD i [] = x := by
  simp [List.getD, List.getElem?_set_eq_of_lt, h]

/-- Fields of the environment that `_take_action` never writes. -/
theorem take_action_preserves (s : TigerEnv) (a : Int) (s2 : TigerEnv)
    (h : s.take_action a = .ok s2 ∨ s.take_action a = .error s2) :
    s2.tiger_left = s.tiger_left ∧ s2.tiger_right = s.tiger_right ∧
    s2.curr_step = s.curr_step ∧ s2.curr_episode = s.curr_episode ∧
    s2.max_steps_per_episode = s.max_steps_per_episode := by
  unfold TigerEnv.take_action at h
  rcases h with h | h <;> repeat' split at h
  all_goals first
    | (injection h with h2; subst h2; simp)
    | injection h

/-- Fields of the environment that `_step_reset` never writes. -/
theorem step_reset_preserves (s : TigerEnv) (r : Rng) :
    (s.step_reset r).1.curr_step = s.curr_step ∧
    (s.step_reset r).1.curr_episode = s.curr_episode ∧
    (s.step_reset r).1.max_steps_per_episode = s.max_steps_per_episode := by
  simp [TigerEnv.step_reset]

/-- The tiger flags are one-hot after `_step_reset`. -/
theorem step_reset_tigerOneHot (s : TigerEnv) (r : Rng) :
    tigerOneHot (s.step_reset r).1 := by
  unfold tigerOneHot TigerEnv.step_reset npRandint01
  by_cases h : r.ints r.intIdx <;> simp [h]

/-- The tiger flags are one-hot after `reset`. -/
theorem reset_tigerOneHot (s : TigerEnv) (r : Rng) :
    tigerOneHot (s.reset r).2.1 := by
  unfold tigerOneHot TigerEnv.reset npRandint01
  by_cases h : r.ints r.intIdx <;> simp [h]

/-- Exact outcome of `step(OPEN_LEFT)` on an in-progress environment with a
well-formed episode memory: the door branch of `_get_reward` fires, the
observation is the accurate growl (no `rand()` draw), and `_step_reset`
closes the door again and resamples the tiger. -/
theorem step_open_left_eq (s : TigerEnv) (r : Rng)
    (hprog : ¬ s.curr_step ≥ s.max_steps_per_episode)
    (hmem : s.curr_episode.toNat < s.action_episode_memory.length) :
    s.step r ACTION_OPEN_LEFT =
      .ok (if s.tiger_left ≠ 0 then OBS_GROWL_LEFT else OBS_GROWL_RIGHT)
          (if s.tiger_left ≠ 0 then s.reward_tiger else s.reward_gold)
          (decide (s.curr_step + 1 ≥ s.max_steps_per_episode))
          { s with
              curr_step := s.curr_step + 1
              action_episode_memory :=
                s.action_episode_memory.set s.curr_episode.toNat
                  ((s.action_episode_memory.getD s.curr_episode.toNat [])
                    ++ [ACTION_OPEN_LEFT])
              left_door_open := false
              right_door_open := false
              tiger_left := if r.ints r.intIdx then 1 else 0
              tiger_right := 1 - (if r.ints r.intIdx then 1 else 0) }
          ⟨r.ints, r.floats, r.intIdx + 1, r.floatIdx⟩ := by
  unfold TigerEnv.step TigerEnv.take_action TigerEnv.get_reward TigerEnv.get_obs
    TigerEnv.step_reset
  rw [if_neg hprog]
  simp [ACTION_OPEN_LEFT, ACTION_OPEN_RIGHT, ACTION_LISTEN,
    List.getElem?_set_eq_of_lt _ hmem, List.getLast?_concat, npRandint01]

/-- Exact outcome of `step(OPEN_RIGHT)` on an in-progress environment whose
left door is closed (as it always is when a step begins). -/
theorem step_open_right_eq (s : TigerEnv) (r : Rng)
    (hprog : ¬ s.curr_step ≥ s.max_steps_per_episode)
    (hmem : s.curr_episode.toNat < s.action_episode_memory.length)
    (hL : s.left_door_open = false) :
    s.step r ACTION_OPEN_RIGHT =
      .ok (if s.tiger_left ≠ 0 then OBS_GROWL_LEFT else OBS_GROWL_RIGHT)
          (if s.tiger_right ≠ 0 then s.reward_tiger else s.reward_gold)
          (decide (s.curr_step + 1 ≥ s.max_steps_per_episode))
          { s with
              curr_step := s.curr_step + 1
              action_episode_memory :=
                s.action_episode_memory.set s.curr_episode.toNat
                  ((s.action_episode_memory.getD s.curr_episode.toNat [])
                    ++ [ACTION_OPEN_RIGHT])
              left_door_open := false
              right_door_open := false
              tiger_left := if r.ints r.intIdx then 1 else 0
              tiger_right := 1 - (if r.ints r.intIdx then 1 else 0) }
          ⟨r.ints, r.floats, r.intIdx + 1, r.floatIdx⟩ := by
  unfold TigerEnv.step TigerEnv.take_action TigerEnv.get_reward TigerEnv.get_obs
    TigerEnv.step_reset
  rw [if_neg hprog]
  simp [ACTION_OPEN_LEFT, ACTION_OPEN_RIGHT, ACTION_LISTEN, hL,
    List.getElem?_set_eq_of_lt _ hmem, List.getLast?_concat, npRandint01]

/-- Exact outcome of `step(LISTEN)` on an in-progress environment with both
doors closed: reward `reward_listen`, and the observation decided by one
`rand()` draw against `obs_accuracy`. -/
theorem step_listen_eq (s : TigerEnv) (r : Rng)
    (hprog : ¬ s.curr_step ≥ s.max_steps_per_episode)
    (hmem : s.curr_episode.toNat < s.action_episode_memory.length)
    (hL : s.left_door_open = false) (hR : s.right_door_open = false) :
    s.step r ACTION_LISTEN =
      .ok (if r.floats r.floatIdx < s.obs_accuracy then
             (if s.tiger_left ≠ 0 then OBS_GROWL_LEFT else OBS_GROWL_RIGHT)
           else
             (if s.tiger_left ≠ 0 then OBS_GROWL_RIGHT else OBS_GROWL_LEFT))
          s.reward_listen
          (decide (s.curr_step + 1 ≥ s.max_steps_per_episode))
          { s with
              curr_step := s.curr_step + 1
              action_episode_memory :=
                s.action_episode_memory.set s.curr_episode.toNat
                  ((s.action_episode_memory.getD s.curr_episode.toNat [])
                    ++ [ACTION_LISTEN])
              left_door_open := false
              right_door_open := false
              tiger_left := if r.ints r.intIdx then 1 else 0
              tiger_right := 1 - (if r.ints r.intIdx then 1 else 0) }
          ⟨r.ints, r.floats, r.intIdx + 1, r.floatIdx + 1⟩ := by
  unfold TigerEnv.step TigerEnv.take_action TigerEnv.get_reward TigerEnv.get_obs
    TigerEnv.step_reset
  rw [if_neg hprog]
  by_cases hacc : r.floats r.floatIdx < s.obs_accuracy <;>
    simp [ACTION_OPEN_LEFT, ACTION_OPEN_RIGHT, ACTION_LISTEN, hL, hR, hacc,
      List.getElem?_set_eq_of_lt _ hmem, List.getLast?_concat, npRandint01,
      npRand]

/-- Exact outcome of `step` on an invalid action code: the
`ValueError('Invalid action', action)` raise, after `curr_step` was already
incremented and the action already appended to the episode log; doors and
tiger are untouched. -/
theorem step_invalid_eq (s : TigerEnv) (r : Rng) (a : Int)
    (hprog : ¬ s.curr_step ≥ s.max_steps_per_episode)
    (h0 : a ≠ ACTION_OPEN_LEFT) (h1 : a ≠ ACTION_OPEN_RIGHT)
    (h2 : a ≠ ACTION_LISTEN) :
    s.step r a =
      .invalidAction
        { s with
            curr_step := s.curr_step + 1
            action_episode_memory :=
              s.action_episode_memory.set s.curr_episode.toNat
                ((s.action_episode_memory.getD s.curr_episode.toNat [])
                  ++ [a]) }
        r := by
  unfold TigerEnv.step TigerEnv.take_action
  rw [if_neg hprog]
  simp [h0, h1, h2]

/-- Every non-`episodeDone` outcome of `step` carries the incremented step
counter (even error outcomes, whose mutations Python keeps). -/
theorem step_envState_curr_step (s : TigerEnv) (r : Rng) (a : Int)
    (hprog : ¬ s.curr_step ≥ s.max_steps_per_episode) :
    ((s.step r a).envState).curr_step = s.curr_step + 1 := by
  unfold TigerEnv.step
  rw [if_neg hprog]
  set s1 : TigerEnv := { s with curr_step := s.curr_step + 1 } with hs1
  have hstep : s1.curr_step = s.curr_step + 1 := rfl
  rcases hta : s1.take_action a with s2 | s2
  · have h2 := take_action_preserves s1 a s2 (Or.inr hta)
    simp [hta, StepResult.envState, h2.2.2.1, hstep]
  · have h2 := take_action_preserves s1 a s2 (Or.inl hta)
    rcases hrew : s2.get_reward with e | rew
    · simp [hta, hrew, StepResult.envState, h2.2.2.1, hstep]
    · rcases hobs : s2.get_obs r with e | obr
      · simp [hta, hrew, hobs, StepResult.envState, h2.2.2.1, hstep]
      · have h3 := step_reset_preserves s2 obr.2
        simp [hta, hrew, hobs, StepResult.envState, h3.1, h2.2.2.1, hstep]

/-- C1: for every `step(action)` call with a valid action on an in-progress
environment (doors closed, well-formed memory, as every reachable pre-step
state has), the returned reward is exactly the spec's table applied to the
pre-reset hidden state and the action: LISTEN yields `reward_listen`,
OPEN_LEFT yields `reward_tiger` iff `tiger_left`, OPEN_RIGHT yields
`reward_tiger` iff `tiger_right`, else `reward_gold`. -/
theorem C1_step_reward_table (s : TigerEnv) (r : Rng) (a : Int)
    (hprog : ¬ s.curr_step ≥ s.max_steps_per_episode)
    (hmem : s.curr_episode.toNat < s.action_episode_memory.length)
    (hL : s.left_door_open = false) (hR : s.right_door_open = false)
    (hvalid : a = ACTION_OPEN_LEFT ∨ a = ACTION_OPEN_RIGHT ∨ a = ACTION_LISTEN) :
    ∃ ob done s2 r2, s.step r a = .ok ob (specRewardTable s a) done s2 r2 := by
  rcases hvalid with h | h | h <;> subst h
  · have htab : specRewardTable s ACTION_OPEN_LEFT
        = (if s.tiger_left ≠ 0 then s.reward_tiger else s.reward_gold) := by
      simp [specRewardTable, ACTION_OPEN_LEFT, ACTION_LISTEN]
    simp only [htab]
    exact ⟨_, _, _, _, step_open_left_eq s r hprog hmem⟩
  · have htab : specRewardTable s ACTION_OPEN_RIGHT
        = (if s.tiger_right ≠ 0 then s.reward_tiger else s.reward_gold) := by
      simp [specRewardTable, ACTION_OPEN_RIGHT, ACTION_OPEN_LEFT, ACTION_LISTEN]
    simp only [htab]
    exact ⟨_, _, _, _, step_open_right_eq s r hprog hmem hL⟩
  · have htab : specRewardTable s ACTION_LISTEN = s.reward_listen := by
      simp [specRewardTable]
    simp only [htab]
    exact ⟨_, _, _, _, step_listen_eq s r hprog hmem hL hR⟩

/-- Witness for C1 at a concrete input: the default environment under the
all-zero random source, stepped with `OPEN_LEFT`. -/
theorem C1_witness :
    ∃ ob done s2 r2,
      (TigerEnv.initDefault rng0).1.step rng0 ACTION_OPEN_LEFT =
        .ok ob (specRewardTable (TigerEnv.initDefault rng0).1 ACTION_OPEN_LEFT)
          done s2 r2 :=
  C1_step_reward_table _ rng0 _ (by decide) (by decide) (by decide) (by decide)
    (Or.inl rfl)

/-- C2 counterexample: stepping the freshly constructed default environment
with the invalid action code `5` does raise the invalid-action error, but
the state is mutated: `curr_step` went from `-1` to `0` and the invalid
action was appended to the episode log. -/
theorem C2_counterexample :
    ((TigerEnv.initDefault rng0).1.step rng0 5).isInvalidAction = true ∧
    (TigerEnv.initDefault rng0).1.curr_step = -1 ∧
    ((TigerEnv.initDefault rng0).1.step rng0 5).envState.curr_step = 0 ∧
    (TigerEnv.initDefault rng0).1.action_episode_memory = [[]] ∧
    ((TigerEnv.initDefault rng0).1.step rng0 5).envState.action_episode_memory
      = [[5]] := by
  decide

/-- C2 amended: for every action value outside
`{OPEN_LEFT, OPEN_RIGHT, LISTEN}` on an in-progress environment, `step`
raises the invalid-action error, leaving doors, tiger state, episode index
and configuration unchanged — but the step counter has already been
incremented and the invalid action appended to the episode's action
history. -/
theorem C2_invalid_action_mutates (s : TigerEnv) (r : Rng) (a : Int)
    (hprog : ¬ s.curr_step ≥ s.max_steps_per_episode)
    (h0 : a ≠ ACTION_OPEN_LEFT) (h1 : a ≠ ACTION_OPEN_RIGHT)
    (h2 : a ≠ ACTION_LISTEN) :
    ∃ s2, s.step r a = .invalidAction s2 r ∧
      s2.curr_step = s.curr_step + 1 ∧
      s2.action_episode_memory =
        s.action_episode_memory.set s.curr_episode.toNat
          ((s.action_episode_memory.getD s.curr_episode.toNat []) ++ [a]) ∧
      s2.left_door_open = s.left_door_open ∧
      s2.right_door_open = s.right_door_open ∧
      s2.tiger_left = s.tiger_left ∧ s2.tiger_right = s.tiger_right ∧
      s2.curr_episode = s.curr_episode ∧
      s2.max_steps_per_episode = s.max_steps_per_episode :=
  ⟨_, step_invalid_eq s r a hprog h0 h1 h2,
    rfl, rfl, rfl, rfl, rfl, rfl, rfl, rfl⟩

/-- Witness for C2 at a concrete input: action code `5` on the default
environment. -/
theorem C2_witness :
    ∃ s2, (TigerEnv.initDefault rng0).1.step rng0 5 = .invalidAction s2 rng0 ∧
      s2.curr_step = (TigerEnv.initDefault rng0).1.curr_step + 1 ∧
      s2.action_episode_memory =
        (TigerEnv.initDefault rng0).1.action_episode_memory.set
          (TigerEnv.initDefault rng0).1.curr_episode.toNat
          (((TigerEnv.initDefault rng0).1.action_episode_memory.getD
            (TigerEnv.initDefault rng0).1.curr_episode.toNat []) ++ [5]) ∧
      s2.left_door_open = (TigerEnv.initDefault rng0).1.left_door_open ∧
      s2.right_door_open = (TigerEnv.initDefault rng0).1.right_door_open ∧
      s2.tiger_left = (TigerEnv.initDefault rng0).1.tiger_left ∧
      s2.tiger_right = (TigerEnv.initDefault rng0).1.tiger_right ∧
      s2.curr_episode = (TigerEnv.initDefault rng0).1.curr_episode ∧
      s2.max_steps_per_episode =
        (TigerEnv.initDefault rng0).1.max_steps_per_episode :=
  C2_invalid_action_mutates _ rng0 5 (by decide) (by decide) (by decide)
    (by decide)

/-- C3 counterexample: opening a door does not terminate the episode.  With
the default configuration, `step(OPEN_LEFT)` succeeds and the very next
`step(LISTEN)` also succeeds instead of raising the episode-done error. -/
theorem C3_counterexample :
    ((TigerEnv.initDefault rng0).1.step rng0 ACTION_OPEN_LEFT).isOk = true ∧
    ((((TigerEnv.initDefault rng0).1.step rng0 ACTION_OPEN_LEFT).envState).step
      (((TigerEnv.initDefault rng0).1.step rng0 ACTION_OPEN_LEFT).rngState)
      ACTION_OPEN_RIGHT).isOk = true := by
  decide

/-- C3 amended: the only terminal condition is the step counter.  Whenever
`curr_step >= max_steps_per_episode`, every `step` call (any action) raises
the episode-done error and leaves the state unchanged, hence every
subsequent call keeps raising it until `reset()`. -/
theorem C3_done_guard (s : TigerEnv) (r : Rng) (a : Int)
    (h : s.curr_step ≥ s.max_steps_per_episode) :
    s.step r a = .episodeDone s r := by
  unfold TigerEnv.step
  rw [if_pos h]

/-- Witness for C3 at a concrete input: with `max_steps_per_episode = 0`,
one `OPEN_LEFT` step reaches the terminal count, and the next call raises. -/
theorem C3_witness :
    (((TigerEnv.init (-100) 10 (-1) (17 / 20) 0 rng0).1.step rng0
        ACTION_OPEN_LEFT).envState).step rng0 ACTION_LISTEN
      = .episodeDone
          (((TigerEnv.init (-100) 10 (-1) (17 / 20) 0 rng0).1.step rng0
            ACTION_OPEN_LEFT).envState) rng0 :=
  C3_done_guard _ rng0 ACTION_LISTEN (by decide)

/-- Closed form of the construction: `__init__` ends in the state produced
by the initial `reset` (episode `0`, one empty log, step counter `-1`,
doors closed, tiger freshly sampled), having consumed one `randint` draw. -/
theorem init_eq (rt rg rl : Int) (oa : ℚ) (ms : Int) (r : Rng) :
    TigerEnv.init rt rg rl oa ms r =
      (⟨rt, rg, rl, oa, ms, 0, [[]], -1, false, false,
        (if r.ints r.intIdx then 1 else 0),
        1 - (if r.ints r.intIdx then 1 else 0), 3, 3⟩,
       ⟨r.ints, r.floats, r.intIdx + 1, r.floatIdx⟩) := by
  simp [TigerEnv.init, TigerEnv.reset, npRandint01]

/-- Outcome of `step(LISTEN)` with the posterior state described only
through the fields a chained step needs (existential observation). -/
theorem step_listen_chain (s : TigerEnv) (r : Rng)
    (hprog : ¬ s.curr_step ≥ s.max_steps_per_episode)
    (hmem : s.curr_episode.toNat < s.action_episode_memory.length)
    (hL : s.left_door_open = false) (hR : s.right_door_open = false) :
    ∃ ob s2 r2,
      s.step r ACTION_LISTEN
        = .ok ob s.reward_listen
            (decide (s.curr_step + 1 ≥ s.max_steps_per_episode)) s2 r2 ∧
      s2.curr_step = s.curr_step + 1 ∧
      s2.max_steps_per_episode = s.max_steps_per_episode ∧
      s2.curr_episode = s.curr_episode ∧
      s2.action_episode_memory.length = s.action_episode_memory.length ∧
      s2.left_door_open = false ∧ s2.right_door_open = false ∧
      s2.reward_listen = s.reward_listen := by
  refine ⟨_, _, _, step_listen_eq s r hprog hmem hL hR,
    rfl, rfl, rfl, ?_, rfl, rfl, rfl⟩
  simp

/-- C4 counterexample: constructing with `max_steps_per_episode = 3` (and
`obs_accuracy = 0` to keep the trace concrete), the first three
`step(LISTEN)` calls all succeed but return `done = False, False, False` —
the third call is not the terminal one, contrary to the claim. -/
theorem C4_counterexample :
    ((TigerEnv.init (-100) 10 (-1) 0 3 rng0).1.step
        (TigerEnv.init (-100) 10 (-1) 0 3 rng0).2 ACTION_LISTEN).doneOf
      = some false ∧
    (((TigerEnv.init (-100) 10 (-1) 0 3 rng0).1.step
        (TigerEnv.init (-100) 10 (-1) 0 3 rng0).2 ACTION_LISTEN).envState.step
      ((TigerEnv.init (-100) 10 (-1) 0 3 rng0).1.step
        (TigerEnv.init (-100) 10 (-1) 0 3 rng0).2 ACTION_LISTEN).rngState
      ACTION_LISTEN).doneOf = some false ∧
    ((((TigerEnv.init (-100) 10 (-1) 0 3 rng0).1.step
        (TigerEnv.init (-100) 10 (-1) 0 3 rng0).2 ACTION_LISTEN).envState.step
      ((TigerEnv.init (-100) 10 (-1) 0 3 rng0).1.step
        (TigerEnv.init (-100) 10 (-1) 0 3 rng0).2 ACTION_LISTEN).rngState
      ACTION_LISTEN).envState.step
     (((TigerEnv.init (-100) 10 (-1) 0 3 rng0).1.step
        (TigerEnv.init (-100) 10 (-1) 0 3 rng0).2 ACTION_LISTEN).envState.step
      ((TigerEnv.init (-100) 10 (-1) 0 3 rng0).1.step
        (TigerEnv.init (-100) 10 (-1) 0 3 rng0).2 ACTION_LISTEN).rngState
      ACTION_LISTEN).rngState
     ACTION_LISTEN).doneOf = some false := by
  decide

/-- C4 amended: with `max_steps_per_episode = 3`, the first FOUR
`step(LISTEN)` calls succeed, returning `done` values
`False, False, False, True` — the fourth call is the terminal one (the
counter runs `-1 → 0,1,2,3` and the done test is `curr_step >= 3`). -/
theorem C4_four_listen_steps (r : Rng) :
    ∃ ob1 s1 r1 ob2 s2 r2 ob3 s3 r3 ob4 s4 r4,
      (TigerEnv.init (-100) 10 (-1) (17 / 20) 3 r).1.step
          (TigerEnv.init (-100) 10 (-1) (17 / 20) 3 r).2 ACTION_LISTEN
        = .ok ob1 (-1) false s1 r1 ∧
      s1.step r1 ACTION_LISTEN = .ok ob2 (-1) false s2 r2 ∧
      s2.step r2 ACTION_LISTEN = .ok ob3 (-1) false s3 r3 ∧
      s3.step r3 ACTION_LISTEN = .ok ob4 (-1) true s4 r4 := by
  rw [init_eq]
  obtain ⟨ob1, s1, r1, heq1, hcs1, hmax1, hep1, hlen1, hL1, hR1, hrl1⟩ :=
    step_listen_chain
      ⟨-100, 10, -1, 17 / 20, 3, 0, [[]], -1, false, false,
        (if r.ints r.intIdx then 1 else 0),
        1 - (if r.ints r.intIdx then 1 else 0), 3, 3⟩
      ⟨r.ints, r.floats, r.intIdx + 1, r.floatIdx⟩
      (by norm_num) (by norm_num) rfl rfl
  obtain ⟨ob2, s2, r2, heq2, hcs2, hmax2, hep2, hlen2, hL2, hR2, hrl2⟩ :=
    step_listen_chain s1 r1
      (by rw [hcs1, hmax1]; norm_num) (by rw [hep1, hlen1]; norm_num) hL1 hR1
  obtain ⟨ob3, s3, r3, heq3, hcs3, hmax3, hep3, hlen3, hL3, hR3, hrl3⟩ :=
    step_listen_chain s2 r2
      (by rw [hcs2, hcs1, hmax2, hmax1]; norm_num)
      (by rw [hep2, hep1, hlen2, hlen1]; norm_num) hL2 hR2
  obtain ⟨ob4, s4, r4, heq4, hcs4, hmax4, hep4, hlen4, hL4, hR4, hrl4⟩ :=
    step_listen_chain s3 r3
      (by rw [hcs3, hcs2, hcs1, hmax3, hmax2, hmax1]; norm_num)
      (by rw [hep3, hep2, hep1, hlen3, hlen2, hlen1]; norm_num) hL3 hR3
  refine ⟨ob1, s1, r1, ob2, s2, r2, ob3, s3, r3, ob4, s4, r4, ?_, ?_, ?_, ?_⟩
  · rw [heq1]; norm_num
  · rw [heq2, hrl1, hcs1, hmax1]; norm_num
  · rw [heq3, hrl2, hrl1, hcs2, hcs1, hmax2, hmax1]; norm_num
  · rw [heq4, hrl3, hrl2, hrl1, hcs3, hcs2, hcs1, hmax3, hmax2, hmax1]
    norm_num

/-- C5 counterexample: the default-constructed environment has
`max_steps_per_episode = 100` (not unset), and opening a door returns
`done = False` — the default environment is NOT in terminal-episode mode. -/
theorem C5_counterexample :
    (TigerEnv.initDefault rng0).1.max_steps_per_episode = 100 ∧
    ((TigerEnv.initDefault rng0).1.step (TigerEnv.initDefault rng0).2
      ACTION_OPEN_LEFT).doneOf = some false := by
  decide

/-- C5 amended: construction with no arguments uses the defaults
`reward_tiger=-100`, `reward_gold=10`, `reward_listen=-1`,
`obs_accuracy=0.85`, and `max_steps_per_episode=100`; the
default-constructed environment operates in fixed-length mode — a first
door-opening step returns `done = False` rather than ending the episode. -/
theorem C5_default_configuration (r : Rng) :
    (TigerEnv.initDefault r).1.reward_tiger = -100 ∧
    (TigerEnv.initDefault r).1.reward_gold = 10 ∧
    (TigerEnv.initDefault r).1.reward_listen = -1 ∧
    (TigerEnv.initDefault r).1.obs_accuracy = 17 / 20 ∧
    (TigerEnv.initDefault r).1.max_steps_per_episode = 100 ∧
    ∃ ob rew s2 r2,
      (TigerEnv.initDefault r).1.step (TigerEnv.initDefault r).2
          ACTION_OPEN_LEFT = .ok ob rew false s2 r2 := by
  unfold TigerEnv.initDefault
  rw [init_eq]
  refine ⟨rfl, rfl, rfl, rfl, rfl, ?_⟩
  have heq := step_open_left_eq
    ⟨-100, 10, -1, 17 / 20, 100, 0, [[]], -1, false, false,
      (if r.ints r.intIdx then 1 else 0),
      1 - (if r.ints r.intIdx then 1 else 0), 3, 3⟩
    ⟨r.ints, r.floats, r.intIdx + 1, r.floatIdx⟩
    (by norm_num) (by norm_num)
  have hdone : (decide (((-1 : Int) + 1) ≥ 100)) = false := by norm_num
  rw [hdone] at heq
  exact ⟨_, _, _, _, heq⟩

/-- C6: for every environment state, `reset()` returns the `START`
observation and sets the step counter to the sentinel `-1`; provided the
configuration lets a step proceed at all (`max_steps_per_episode > -1`),
the immediately following `step()` call — whatever its action and however
it ends — leaves the counter at its first valid value `0`. -/
theorem C6_reset_start_and_counter (s : TigerEnv) (r : Rng) :
    (s.reset r).1 = OBS_START ∧
    (s.reset r).2.1.curr_step = -1 ∧
    (∀ a r2, (-1 : Int) < s.max_steps_per_episode →
      (((s.reset r).2.1.step r2 a).envState).curr_step = 0) := by
  refine ⟨rfl, rfl, fun a r2 hmax => ?_⟩
  have h1 : ¬ ((s.reset r).2.1.curr_step ≥
      (s.reset r).2.1.max_steps_per_episode) := by
    have hcs : (s.reset r).2.1.curr_step = -1 := rfl
    have hms : (s.reset r).2.1.max_steps_per_episode =
        s.max_steps_per_episode := rfl
    rw [hcs, hms]
    exact not_le.mpr hmax
  rw [step_envState_curr_step _ _ _ h1]
  norm_num [TigerEnv.reset]

/-- Witness for C6 at a concrete input: the default environment, reset,
then stepped with `LISTEN`. -/
theorem C6_witness :
    ((TigerEnv.initDefault rng0).1.reset rng0).1 = OBS_START ∧
    ((TigerEnv.initDefault rng0).1.reset rng0).2.1.curr_step = -1 ∧
    ((((TigerEnv.initDefault rng0).1.reset rng0).2.1.step rng0
      ACTION_LISTEN).envState).curr_step = 0 :=
  ⟨(C6_reset_start_and_counter (TigerEnv.initDefault rng0).1 rng0).1,
   (C6_reset_start_and_counter (TigerEnv.initDefault rng0).1 rng0).2.1,
   (C6_reset_start_and_counter (TigerEnv.initDefault rng0).1 rng0).2.2
     ACTION_LISTEN rng0 (by decide)⟩

/-- Whatever way a `step` call ends, the state it leaves behind has one-hot
tiger flags if the state it started from did. -/
theorem step_envState_tigerOneHot (s : TigerEnv) (r : Rng) (a : Int)
    (h : tigerOneHot s) : tigerOneHot ((s.step r a).envState) := by
  unfold TigerEnv.step
  by_cases hdone : s.curr_step ≥ s.max_steps_per_episode
  · rw [if_pos hdone]
    exact h
  · rw [if_neg hdone]
    have h1 : tigerOneHot { s with curr_step := s.curr_step + 1 } := h
    rcases hta : TigerEnv.take_action { s with curr_step := s.curr_step + 1 } a
      with s2 | s2
    · have hp := take_action_preserves _ a s2 (Or.inr hta)
      simp only [hta, StepResult.envState]
      unfold tigerOneHot at h1 ⊢
      rw [hp.1, hp.2.1]
      exact h1
    · have hp := take_action_preserves _ a s2 (Or.inl hta)
      have h2 : tigerOneHot s2 := by
        unfold tigerOneHot at h1 ⊢
        rw [hp.1, hp.2.1]
        exact h1
      rcases hrew : s2.get_reward with e | rew
      · simp only [hta, hrew, StepResult.envState]
        exact h2
      · rcases hobs : s2.get_obs r with e | obr
        · simp only [hta, hrew, hobs, StepResult.envState]
          exact h2
        · simp only [hta, hrew, hobs, StepResult.envState]
          exact step_reset_tigerOneHot s2 obr.2

/-- Every reachable state has one-hot tiger flags. -/
theorem reachable_tigerOneHot (s : TigerEnv) (h : Reachable s) :
    tigerOneHot s := by
  induction h with
  | init rt rg rl oa ms r =>
      rw [init_eq]
      by_cases hb : r.ints r.intIdx <;> simp [tigerOneHot, hb]
  | reset s r _ _ => exact reset_tigerOneHot s r
  | step s r a _ ih => exact step_envState_tigerOneHot s r a ih

/-- C7: in every reachable state of the environment (after construction,
after every `reset()`, and after every `step()`, raising ones included),
exactly one of `tiger_left` and `tiger_right` is truthy — never both and
never neither. -/
theorem C7_exactly_one_tiger_side (s : TigerEnv) (h : Reachable s) :
    (s.tiger_left ≠ 0 ∧ s.tiger_right = 0) ∨
    (s.tiger_left = 0 ∧ s.tiger_right ≠ 0) := by
  rcases reachable_tigerOneHot s h with ⟨h1, h2⟩ | ⟨h1, h2⟩
  · refine Or.inl ⟨?_, h2⟩
    rw [h1]
    norm_num
  · refine Or.inr ⟨h1, ?_⟩
    rw [h2]
    norm_num

/-- Witness for C7 at a concrete input: the freshly constructed default
environment. -/
theorem C7_witness :
    ((TigerEnv.initDefault rng0).1.tiger_left ≠ 0 ∧
      (TigerEnv.initDefault rng0).1.tiger_right = 0) ∨
    ((TigerEnv.initDefault rng0).1.tiger_left = 0 ∧
      (TigerEnv.initDefault rng0).1.tiger_right ≠ 0) :=
  C7_exactly_one_tiger_side _
    (Reachable.init (-100) 10 (-1) (17 / 20) 100 rng0)

/-- A successful `_get_obs` call returns one of the two growls. -/
theorem get_obs_growl (s : TigerEnv) (r : Rng) (ob : List Nat) (r2 : Rng)
    (h : s.get_obs r = .ok (ob, r2)) :
    ob = OBS_GROWL_LEFT ∨ ob = OBS_GROWL_RIGHT := by
  unfold TigerEnv.get_obs at h
  repeat' split at h
  all_goals try (by_cases hc : (npRand r).1 < s.obs_accuracy <;>
    [rw [if_pos hc] at h; rw [if_neg hc] at h])
  all_goals simp_all

/-- The observation of a successful `step` call is one of the two growls. -/
theorem step_ok_growl (s : TigerEnv) (r : Rng) (a : Int) (ob : List Nat)
    (rew : Int) (dn : Bool) (s2 : TigerEnv) (r2 : Rng)
    (h : s.step r a = .ok ob rew dn s2 r2) :
    ob = OBS_GROWL_LEFT ∨ ob = OBS_GROWL_RIGHT := by
  unfold TigerEnv.step at h
  by_cases hdone : s.curr_step ≥ s.max_steps_per_episode
  · rw [if_pos hdone] at h
    injection h
  · rw [if_neg hdone] at h
    rcases hta : TigerEnv.take_action { s with curr_step := s.curr_step + 1 } a
      with s' | s'
    · simp only [hta] at h
      injection h
    · simp only [hta] at h
      rcases hrew : s'.get_reward with e | rew'
      · simp only [hrew] at h
        injection h
      · simp only [hrew] at h
        rcases hobs : s'.get_obs r with e | obr
        · simp only [hobs] at h
          injection h
        · simp only [hobs] at h
          rw [StepResult.ok.injEq] at h
          rcases h with ⟨h1, h2, h3, h4, h5⟩
          rw [← h1]
          exact get_obs_growl s' r obr.1 obr.2 hobs

/-- C8 counterexample: the observation returned by `reset()` is a one-hot
vector of length 4, but the configured observation space has size 3 — the
cardinality does NOT match. -/
theorem C8_counterexample :
    ((TigerEnv.initDefault rng0).1.reset rng0).1.length = 4 ∧
    (TigerEnv.initDefault rng0).1.observation_space_n = 3 := by
  decide

/-- C8 amended: every call that produces an observation (`reset()` and a
successful `step()`) returns exactly one observation, a one-hot vector of
length 4 — one more than the size 3 of the configured observation space
(the fourth slot, an `END` marker in sibling variants, is never used). -/
theorem C8_one_hot_length (s : TigerEnv) (r : Rng) :
    (isOneHot (s.reset r).1 = true ∧ (s.reset r).1.length = 4) ∧
    (∀ a ob rew dn s2 r2, s.step r a = .ok ob rew dn s2 r2 →
      isOneHot ob = true ∧ ob.length = 4) ∧
    (∀ rt rg rl oa ms r2,
      (TigerEnv.init rt rg rl oa ms r2).1.observation_space_n = 3) := by
  refine ⟨⟨(show isOneHot OBS_START = true by decide),
      (show OBS_START.length = 4 by decide)⟩,
    fun a ob rew dn s2 r2 h => ?_,
    fun rt rg rl oa ms r2 => by rw [init_eq]⟩
  rcases step_ok_growl s r a ob rew dn s2 r2 h with hg | hg <;> subst hg <;>
    exact ⟨by decide, by decide⟩

/-- Witness for C8 at a concrete input: a successful `OPEN_LEFT` step on
the default environment (its observation is the right growl under the
all-zero random source). -/
theorem C8_witness :
    isOneHot OBS_GROWL_RIGHT = true ∧ OBS_GROWL_RIGHT.length = 4 :=
  (C8_one_hot_length (TigerEnv.initDefault rng0).1 rng0).2.1
    ACTION_OPEN_LEFT OBS_GROWL_RIGHT 10 false
    ((TigerEnv.initDefault rng0).1.step rng0 ACTION_OPEN_LEFT).envState
    ((TigerEnv.initDefault rng0).1.step rng0 ACTION_OPEN_LEFT).rngState
    rfl

/-- C9: when `step`'s action opened a door (`OPEN_LEFT` or `OPEN_RIGHT`, on
an in-progress environment with well-formed memory and the left door
closed, as reachable pre-step states have), the returned observation is the
accurate growl for the true hidden tiger side at the time of the action —
`GROWL_LEFT` iff `tiger_left` — independent of `obs_accuracy` and of any
`rand()` draw (the float stream and its cursor are untouched). -/
theorem C9_door_open_leaks_accurate_growl (s : TigerEnv) (r : Rng) (a : Int)
    (hprog : ¬ s.curr_step ≥ s.max_steps_per_episode)
    (hmem : s.curr_episode.toNat < s.action_episode_memory.length)
    (hL : s.left_door_open = false)
    (ha : a = ACTION_OPEN_LEFT ∨ a = ACTION_OPEN_RIGHT) :
    ∃ rew dn s2 r2,
      s.step r a
        = .ok (if s.tiger_left ≠ 0 then OBS_GROWL_LEFT else OBS_GROWL_RIGHT)
            rew dn s2 r2 ∧
      r2.floats = r.floats ∧ r2.floatIdx = r.floatIdx := by
  rcases ha with h | h <;> subst h
  · exact ⟨_, _, _, _, step_open_left_eq s r hprog hmem, rfl, rfl⟩
  · exact ⟨_, _, _, _, step_open_right_eq s r hprog hmem hL, rfl, rfl⟩

/-- Witness for C9 at a concrete input: `OPEN_LEFT` on the default
environment. -/
theorem C9_witness :
    ∃ rew dn s2 r2,
      (TigerEnv.initDefault rng0).1.step rng0 ACTION_OPEN_LEFT
        = .ok (if (TigerEnv.initDefault rng0).1.tiger_left ≠ 0 then
            OBS_GROWL_LEFT else OBS_GROWL_RIGHT) rew dn s2 r2 ∧
      r2.floats = rng0.floats ∧ r2.floatIdx = rng0.floatIdx :=
  C9_door_open_leaks_accurate_growl _ rng0 _ (by decide) (by decide)
    (by decide) (Or.inl rfl)

/-- C10: construction runs an initial `reset`: immediately afterwards the
episode index is `0`, the action history holds exactly one empty log, the
step counter is the sentinel `-1`, both doors are closed, a tiger side is
already sampled (one-hot), and — whenever the configured step budget allows
stepping at all — `step()` may be called without a prior explicit
`reset()`, returning normally. -/
theorem C10_init_is_reset (rt rg rl : Int) (oa : ℚ) (ms : Int) (r : Rng)
    (hms : (-1 : Int) < ms) :
    (TigerEnv.init rt rg rl oa ms r).1.curr_episode = 0 ∧
    (TigerEnv.init rt rg rl oa ms r).1.action_episode_memory = [[]] ∧
    (TigerEnv.init rt rg rl oa ms r).1.curr_step = -1 ∧
    (TigerEnv.init rt rg rl oa ms r).1.left_door_open = false ∧
    (TigerEnv.init rt rg rl oa ms r).1.right_door_open = false ∧
    tigerOneHot (TigerEnv.init rt rg rl oa ms r).1 ∧
    ∃ ob dn s2 r2,
      (TigerEnv.init rt rg rl oa ms r).1.step
        (TigerEnv.init rt rg rl oa ms r).2 ACTION_LISTEN
        = .ok ob rl dn s2 r2 := by
  rw [init_eq]
  refine ⟨rfl, rfl, rfl, rfl, rfl, ?_, ?_⟩
  · by_cases hb : r.ints r.intIdx <;> simp [tigerOneHot, hb]
  · have heq := step_listen_eq
      ⟨rt, rg, rl, oa, ms, 0, [[]], -1, false, false,
        (if r.ints r.intIdx then 1 else 0),
        1 - (if r.ints r.intIdx then 1 else 0), 3, 3⟩
      ⟨r.ints, r.floats, r.intIdx + 1, r.floatIdx⟩
      (by simpa using not_le.mpr hms) (by norm_num) rfl rfl
    exact ⟨_, _, _, _, heq⟩

/-- Witness for C10 at a concrete input: the default configuration. -/
theorem C10_witness :
    (TigerEnv.init (-100) 10 (-1) (17 / 20) 100 rng0).1.curr_episode = 0 ∧
    (TigerEnv.init (-100) 10 (-1) (17 / 20) 100 rng0).1.action_episode_memory
      = [[]] ∧
    (TigerEnv.init (-100) 10 (-1) (17 / 20) 100 rng0).1.curr_step = -1 ∧
    (TigerEnv.init (-100) 10 (-1) (17 / 20) 100 rng0).1.left_door_open
      = false ∧
    (TigerEnv.init (-100) 10 (-1) (17 / 20) 100 rng0).1.right_door_open
      = false ∧
    tigerOneHot (TigerEnv.init (-100) 10 (-1) (17 / 20) 100 rng0).1 ∧
    ∃ ob dn s2 r2,
      (TigerEnv.init (-100) 10 (-1) (17 / 20) 100 rng0).1.step
        (TigerEnv.init (-100) 10 (-1) (17 / 20) 100 rng0).2 ACTION_LISTEN
        = .ok ob (-1) dn s2 r2 :=
  C10_init_is_reset (-100) 10 (-1) (17 / 20) 100 rng0 (by norm_num)

end GymTiger
